import Mathlib

/-!
# Verification of the restaurant menu service

A shallow embedding of the repository's relational schema (`CREATE TABLE`
statements and seed data for MENU, ORDERS, ORDER_DETAILS, with the two
`ON DELETE CASCADE` foreign keys), its data-access functions
(`getMenuItemsFromDB`, `insertMenuItem`, `deleteMenuItemFromDB` in
`app.js`) and the three HTTP handlers over them
(`GET /api/menu`, `POST /api/menu`, `DELETE /api/menu/:id`).

SQLite's dynamically typed values are modelled by `SQLVal` (numbers are
rationals: all monetary seed data has two decimal digits and the code never
does float arithmetic on them, only stores and compares, so exact rationals
are faithful for every property below).  JavaScript request-body values are
modelled by `JSValue`; the ECMAScript `ToNumber` coercion on strings is
embedded over the whole `StringNumericLiteral` grammar — Unicode
whitespace trimming, signed decimal literals with optional fraction and
exponent, signed `Infinity`, and unsigned hex/binary/octal integer
literals — producing a `JSNumber` (NaN, an infinity, or a finite value).
The program's single use of such a number is the comparison `Price < 0`,
whose truth depends only on whether the binary64 result is negative;
IEEE round-to-nearest preserves the sign, zero-ness and infinite-ness of
an exact value everywhere except at the overflow-to-infinity and
underflow-to-zero thresholds, which `fitDouble` models exactly, so the
mantissa rounding inside the finite nonzero range (which can never change
the outcome of `< 0`) is left unapplied.
-/

namespace Restaurant

/-- An SQLite storage value: a number (INTEGER/REAL, modelled exactly as a
rational), a TEXT value, or NULL. -/
inductive SQLVal where
  | num (q : ℚ)
  | text (s : String)
  | null
deriving DecidableEq, Repr

/-- A JavaScript value as it appears in a parsed JSON request body field:
a number, a string, `null`, or `undefined` (the value of an absent field
after destructuring `const { FoodName, Price, Description } = req.body`). -/
inductive JSValue where
  | num (q : ℚ)
  | str (s : String)
  | null
  | undef
deriving DecidableEq, Repr

/-- The result of ECMAScript `ToNumber`: a binary64 classified as NaN,
an infinity, or a finite value (held exactly as a rational). -/
inductive JSNumber where
  | nan
  | posInf
  | negInf
  | finite (q : ℚ)
deriving DecidableEq, Repr

/-- The ECMAScript `WhiteSpace` and `LineTerminator` code points trimmed
by `ToNumber` on strings: TAB, LF, VT, FF, CR, SP, NBSP, OGHAM SPACE
MARK, the U+2000–U+200A spaces, LS, PS, NNBSP, MMSP, IDEOGRAPHIC SPACE,
and ZWNBSP. -/
def isJSWhitespace (c : Char) : Bool :=
  c = ' ' || c = '\t' || c = '\n' || c = '\r' ||
  c.toNat = 0x0B || c.toNat = 0x0C ||
  c.toNat = 0xA0 || c.toNat = 0x1680 ||
  (0x2000 ≤ c.toNat && c.toNat ≤ 0x200A) ||
  c.toNat = 0x2028 || c.toNat = 0x2029 || c.toNat = 0x202F ||
  c.toNat = 0x205F || c.toNat = 0x3000 || c.toNat = 0xFEFF

/-- Decimal digits to a natural number, most significant first. -/
def digitsToNat (cs : List Char) : Nat :=
  cs.foldl (fun a c => a * 10 + (c.toNat - 48)) 0

/-- An `ExponentPart` (`e`/`E`, optional sign, one or more digits)
matching the whole remainder; `none` when the remainder is not exactly an
exponent part. -/
def parseExponentPart (cs : List Char) : Option ℤ :=
  match cs with
  | c :: r =>
      if c = 'e' ∨ c = 'E' then
        match r with
        | '+' :: d =>
            if !d.isEmpty && d.all Char.isDigit then
              some (digitsToNat d : ℤ)
            else none
        | '-' :: d =>
            if !d.isEmpty && d.all Char.isDigit then
              some (-(digitsToNat d : ℤ))
            else none
        | d =>
            if !d.isEmpty && d.all Char.isDigit then
              some (digitsToNat d : ℤ)
            else none
      else none
  | [] => none

/-- An ECMAScript `StrUnsignedDecimalLiteral` other than `Infinity`:
`digits [. digits] [exponent]` or `. digits [exponent]`, with the exact
rational value; `none` is NaN. -/
def parseDecimalValue (cs : List Char) : Option ℚ :=
  let intPart := cs.takeWhile Char.isDigit
  let rest := cs.dropWhile Char.isDigit
  match rest with
  | [] => if intPart.isEmpty then none else some (digitsToNat intPart)
  | '.' :: rest2 =>
      let fracPart := rest2.takeWhile Char.isDigit
      let rest3 := rest2.dropWhile Char.isDigit
      if intPart.isEmpty && fracPart.isEmpty then none
      else
        let mant : ℚ := (digitsToNat intPart : ℚ) +
          (digitsToNat fracPart : ℚ) / ((10 : ℚ) ^ fracPart.length)
        match rest3 with
        | [] => some mant
        | _ => (parseExponentPart rest3).map (fun e => mant * (10 : ℚ) ^ e)
  | _ =>
      if intPart.isEmpty then none
      else (parseExponentPart rest).map
        (fun e => (digitsToNat intPart : ℚ) * (10 : ℚ) ^ e)

/-- Value of one digit in base 16, `none` for a non-digit. -/
def hexVal (c : Char) : Option Nat :=
  if c.isDigit then some (c.toNat - 48)
  else if 'a' ≤ c ∧ c ≤ 'f' then some (c.toNat - 87)
  else if 'A' ≤ c ∧ c ≤ 'F' then some (c.toNat - 55)
  else none

/-- Value of one digit in base 2, `none` for a non-digit. -/
def binVal (c : Char) : Option Nat :=
  if c = '0' then some 0 else if c = '1' then some 1 else none

/-- Value of one digit in base 8, `none` for a non-digit. -/
def octVal (c : Char) : Option Nat :=
  if '0' ≤ c ∧ c ≤ '7' then some (c.toNat - 48) else none

/-- One or more digits of the given base, all of which must be valid. -/
def parseRadix (base : Nat) (val : Char → Option Nat) (cs : List Char) :
    Option Nat :=
  if cs.isEmpty then none
  else cs.foldl (fun acc c =>
    match acc, val c with
    | some a, some v => some (a * base + v)
    | _, _ => none) (some 0)

/-- An ECMAScript `NonDecimalIntegerLiteral`: `0x`/`0X`, `0b`/`0B` or
`0o`/`0O` followed by digits of that base (no sign is permitted before
these forms). -/
def parseNonDecimal (cs : List Char) : Option Nat :=
  match cs with
  | '0' :: x :: rest =>
      if x = 'x' ∨ x = 'X' then parseRadix 16 hexVal rest
      else if x = 'b' ∨ x = 'B' then parseRadix 2 binVal rest
      else if x = 'o' ∨ x = 'O' then parseRadix 8 octVal rest
      else none
  | _ => none

/-- Classify an exact rational as the binary64 double it converts to,
keeping only what the program's `< 0` comparison can observe: values at
or beyond the IEEE round-to-nearest overflow threshold `2^1024 − 2^970`
become infinities, magnitudes at or below the underflow threshold
`2^−1075` become zero, and finite nonzero doubles keep the exact value
(mantissa rounding cannot change sign, zero-ness or infinite-ness inside
that range, so it is not applied). -/
def fitDouble (q : ℚ) : JSNumber :=
  if ((2 : ℚ) ^ (1024 : ℕ) - (2 : ℚ) ^ (970 : ℕ)) ≤ q then .posInf
  else if q ≤ -((2 : ℚ) ^ (1024 : ℕ) - (2 : ℚ) ^ (970 : ℕ)) then .negInf
  else if |q| ≤ 1 / (2 : ℚ) ^ (1075 : ℕ) then .finite 0
  else .finite q

/-- The part of a `StrDecimalLiteral` after an optional sign: `Infinity`
or an unsigned decimal literal, negated when a `-` sign preceded it. -/
def strUnsigned (cs : List Char) (neg : Bool) : JSNumber :=
  if cs = "Infinity".data then
    if neg then .negInf else .posInf
  else
    match parseDecimalValue cs with
    | some q => fitDouble (if neg then -q else q)
    | none => .nan

/-- ECMAScript `ToNumber` on a string: trim whitespace (empty means `0`),
then either a signed decimal literal / signed `Infinity`, or an unsigned
hex, binary or octal integer literal; anything else is NaN. -/
def strToNumber (s : String) : JSNumber :=
  let cs := ((s.data.dropWhile isJSWhitespace).reverse.dropWhile
    isJSWhitespace).reverse
  match cs with
  | [] => .finite 0
  | '+' :: r => strUnsigned r false
  | '-' :: r => strUnsigned r true
  | _ =>
      match parseNonDecimal cs with
      | some n => fitDouble (n : ℚ)
      | none => strUnsigned cs false

/-- ECMAScript `ToNumber` on the values a JSON body field can hold. -/
def toNumber : JSValue → JSNumber
  | .num q => .finite q
  | .str s => strToNumber s
  | .null => .finite 0
  | .undef => .nan

/-- The JavaScript comparison `v < 0` from the handler's
`if (Price < 0)`: the right operand is the number `0`, so both sides are
coerced with `ToNumber`; NaN on either side yields `false`, `-Infinity`
is below zero and `+Infinity` is not. -/
def jsLtZero (v : JSValue) : Bool :=
  match toNumber v with
  | .finite q => decide (q < 0)
  | .negInf => true
  | .posInf => false
  | .nan => false

/-- Binding a JavaScript value as an SQL statement parameter (the `?`
placeholders of `db.run`): numbers and strings pass through, `null` and
`undefined` both bind SQL NULL. -/
def bindJS : JSValue → SQLVal
  | .num q => .num q
  | .str s => .text s
  | .null => .null
  | .undef => .null

/-- The whitespace SQLite's text-to-number conversion skips around a
numeric literal (its `sqlite3Isspace`): space, TAB, LF, VT, FF, CR. -/
def sqliteIsSpace (c : Char) : Bool :=
  c = ' ' || c = '\t' || c = '\n' || c = '\r' ||
  c.toNat = 0x0B || c.toNat = 0x0C

/-- SQLite's own numeric-literal check used by NUMERIC affinity: an
optionally signed decimal literal with optional fraction and exponent,
surrounded by optional ASCII whitespace and consuming the whole text
(SQLite accepts neither hex nor `Infinity` here, and an empty or
all-whitespace text stays TEXT). -/
def sqliteNumericText (s : String) : Option ℚ :=
  let cs := ((s.data.dropWhile sqliteIsSpace).reverse.dropWhile
    sqliteIsSpace).reverse
  match cs with
  | '+' :: r => parseDecimalValue r
  | '-' :: r => (parseDecimalValue r).map Neg.neg
  | cs' => parseDecimalValue cs'

/-- SQLite NUMERIC column affinity (the `Price DECIMAL(10,2)` column):
TEXT that is a well-formed SQLite numeric literal is stored as a number,
other values are stored as given. -/
def numericAffinity : SQLVal → SQLVal
  | .text s =>
      match sqliteNumericText s with
      | some q => .num q
      | none => .text s
  | v => v

/-- A row of MENU: `FoodID INTEGER PRIMARY KEY`, `FoodName VARCHAR(50)
NOT NULL`, `Price DECIMAL(10,2) NOT NULL`, `Description TEXT NOT NULL`.
The three non-key columns keep SQLite's dynamic typing. -/
structure MenuItem where
  FoodID : Nat
  FoodName : SQLVal
  Price : SQLVal
  Description : SQLVal
deriving DecidableEq, Repr

/-- A row of ORDERS: `OrderID INTEGER PRIMARY KEY`, `OrderDate DATETIME
NOT NULL`, `CustomerName VARCHAR(50) NOT NULL`, `OrderTotal DECIMAL(10,2)
NOT NULL`.  Only seed data ever populates it, so the seeded column types
are used directly. -/
structure Order where
  OrderID : Nat
  OrderDate : String
  CustomerName : String
  OrderTotal : ℚ
deriving DecidableEq, Repr

/-- A row of ORDER_DETAILS: `OrderDetailID INTEGER PRIMARY KEY`,
`OrderID INTEGER NOT NULL`, `FoodID INTEGER NOT NULL`,
`Quantity INTEGER NOT NULL`.  Only seed data ever populates it. -/
structure OrderDetail where
  OrderDetailID : Nat
  OrderID : Nat
  FoodID : Nat
  Quantity : Nat
deriving DecidableEq, Repr

/-- The relational store: the three tables of `RESTURANT.db`. -/
structure DBState where
  menu : List MenuItem
  orders : List Order
  orderDetails : List OrderDetail
deriving DecidableEq, Repr

/-- `FoodID INTEGER PRIMARY KEY` is an alias of the rowid; SQLite assigns
a fresh row the current largest rowid plus one (one on an empty table). -/
def nextFoodID (s : DBState) : Nat :=
  (s.menu.map MenuItem.FoodID).foldr max 0 + 1

/-- `SELECT * FROM menu` (the only statement of `getMenuItemsFromDB`). -/
def getMenuItemsFromDB (s : DBState) : List MenuItem :=
  s.menu

/-- `INSERT INTO menu (FoodName, Price, Description) VALUES (?, ?, ?)`
(the only statement of `insertMenuItem`): fails on a NULL in any of the
three NOT NULL columns, otherwise appends a row with a fresh `FoodID`,
applying NUMERIC affinity to the `Price` column.  The store declares no
CHECK constraint, so no value-level (e.g. sign) condition is tested. -/
def insertMenuItem (s : DBState) (FoodName Price Description : SQLVal) :
    Except String DBState :=
  if FoodName = SQLVal.null ∨ Price = SQLVal.null ∨
      Description = SQLVal.null then
    .error "NOT NULL constraint failed"
  else
    .ok { s with menu := s.menu ++
      [⟨nextFoodID s, FoodName, numericAffinity Price, Description⟩] }

/-- `DELETE FROM menu WHERE FoodID = ?` (the only statement of
`deleteMenuItemFromDB`) as the program actually executes it.  The schema
declares `OrderDetail_Menu FOREIGN KEY (FoodID) REFERENCES MENU (FoodID)
ON DELETE CASCADE`, but SQLite leaves foreign-key enforcement off by
default on every connection and `getDBConnection` never issues
`PRAGMA foreign_keys = ON` (nor does the `sqlite3` driver), so the
declared cascade is inert: the statement removes only the MENU rows and
leaves every referencing ORDER_DETAILS row in place.  No application
cleanup statement follows it either. -/
def deleteMenuItemFromDB (s : DBState) (foodID : Nat) : DBState :=
  { s with menu := s.menu.filter (fun it => it.FoodID ≠ foodID) }

/-- `DELETE FROM orders WHERE OrderID = ?` at the store level, together
with the declared constraint `OrderDetail_Order FOREIGN KEY (OrderID)
REFERENCES ORDERS (OrderID) ON DELETE CASCADE`.  No HTTP endpoint issues
it; the cascade is a standing property of the schema itself. -/
def deleteOrder (s : DBState) (orderID : Nat) : DBState :=
  { s with
    orders := s.orders.filter (fun o => o.OrderID ≠ orderID),
    orderDetails := s.orderDetails.filter (fun od => od.OrderID ≠ orderID) }

/-- The ten seeded MENU rows (FoodIDs assigned 1..10 in insertion order). -/
def seedMenu : List MenuItem :=
  [⟨1, .text "Spaghetti Carbonara", .num 12.50,
     .text "Classic Italian pasta with creamy sauce, bacon, and parmesan."⟩,
   ⟨2, .text "Margherita Pizza", .num 10.00,
     .text "Traditional pizza with tomato, mozzarella, and basil."⟩,
   ⟨3, .text "Cheeseburger", .num 8.50,
     .text "Grilled beef patty with cheddar cheese, lettuce, and tomato."⟩,
   ⟨4, .text "Caesar Salad", .num 7.00,
     .text "Fresh romaine lettuce, parmesan, croutons, and Caesar dressing."⟩,
   ⟨5, .text "Fish Tacos", .num 9.50,
     .text "Soft tacos filled with grilled fish, slaw, and a creamy sauce."⟩,
   ⟨6, .text "Chicken Alfredo", .num 13.00,
     .text "Fettuccine pasta with creamy alfredo sauce and grilled chicken."⟩,
   ⟨7, .text "Vegetable Stir-Fry", .num 11.00,
     .text "Stir-fried vegetables with soy sauce and a hint of sesame oil."⟩,
   ⟨8, .text "BBQ Ribs", .num 15.00,
     .text "Tender pork ribs glazed with BBQ sauce, served with fries."⟩,
   ⟨9, .text "Tuna Poke Bowl", .num 14.00,
     .text "Fresh tuna, rice, avocado, and seaweed salad in a sesame dressing."⟩,
   ⟨10, .text "Lamb Shawarma", .num 16.00,
     .text "Slow-cooked lamb wrapped in pita with garlic sauce and vegetables."⟩]

/-- The ten seeded ORDERS rows (OrderIDs assigned 1..10). -/
def seedOrders : List Order :=
  [⟨1, "2024-11-01 12:45:00", "John Doe", 32.50⟩,
   ⟨2, "2024-11-01 13:10:00", "Jane Smith", 23.00⟩,
   ⟨3, "2024-11-01 13:30:00", "Emily White", 47.00⟩,
   ⟨4, "2024-11-01 14:00:00", "Michael Brown", 21.50⟩,
   ⟨5, "2024-11-01 14:15:00", "Linda Green", 50.00⟩,
   ⟨6, "2024-11-02 16:00:00", "Chris Johnson", 19.00⟩,
   ⟨7, "2024-11-02 16:30:00", "Alice Davis", 36.00⟩,
   ⟨8, "2024-11-02 17:00:00", "David Miller", 28.00⟩,
   ⟨9, "2024-11-03 18:00:00", "Sophia Lee", 44.50⟩,
   ⟨10, "2024-11-03 18:30:00", "James Wilson", 60.00⟩]

/-- The fourteen seeded ORDER_DETAILS rows (OrderDetailIDs 1..14). -/
def seedOrderDetails : List OrderDetail :=
  [⟨1, 1, 1, 1⟩, ⟨2, 1, 3, 1⟩, ⟨3, 2, 2, 2⟩, ⟨4, 3, 4, 1⟩, ⟨5, 3, 6, 2⟩,
   ⟨6, 4, 7, 1⟩, ⟨7, 5, 8, 1⟩, ⟨8, 6, 9, 2⟩, ⟨9, 7, 5, 3⟩, ⟨10, 8, 10, 1⟩,
   ⟨11, 9, 2, 1⟩, ⟨12, 9, 3, 2⟩, ⟨13, 10, 6, 2⟩, ⟨14, 10, 7, 1⟩]

/-- The store as seeded by the schema script. -/
def seedState : DBState :=
  ⟨seedMenu, seedOrders, seedOrderDetails⟩

/-! ## The HTTP layer

Each handler is a thin adapter: it either maps a store-layer failure
(`StoreError`, carried here as the thrown error's message so that
non-leakage is expressible) to a fixed 500 body, or returns the 200 body.
-/

/-- A JSON response body: `{error: ...}`, `{message: ...}`, or the JSON
array of menu rows. -/
inductive RespBody where
  | errorMsg (e : String)
  | message (m : String)
  | items (l : List MenuItem)
deriving DecidableEq, Repr

/-- An HTTP response: status code and JSON body. -/
structure HttpResponse where
  status : Nat
  body : RespBody
deriving DecidableEq, Repr

/-- A parsed `POST /api/menu` body after
`const { FoodName, Price, Description } = req.body` (absent fields are
`undefined`). -/
structure PostBody where
  FoodName : JSValue
  Price : JSValue
  Description : JSValue
deriving DecidableEq, Repr

/-- A store-layer failure outcome for one request: `none` when the store
works, `some msg` when it throws an error whose internal message is
`msg`. -/
def StoreFailure := Option String

/-- `GET /api/menu`: on success, 200 with the row array; on a thrown
store error, 500 with the fixed body `{error: "Error retrieving menu
items"}`.  The state is never changed. -/
def handleGetMenu (s : DBState) (sf : StoreFailure) :
    HttpResponse × DBState :=
  match sf with
  | some _ => (⟨500, .errorMsg "Error retrieving menu items"⟩, s)
  | none => (⟨200, .items (getMenuItemsFromDB s)⟩, s)

/-- The non-validation path of `POST /api/menu`: the `try` block.  It
binds the three body fields as SQL parameters and runs the insert; any
thrown error — a connection failure (`sf = some _`) or a constraint
violation raised by the insert itself — is caught and mapped to the fixed
500 body. -/
def postInsertBranch (s : DBState) (b : PostBody) (sf : StoreFailure) :
    HttpResponse × DBState :=
  match sf with
  | some _ =>
      (⟨500, .errorMsg "Internal Server Error: Please try again later."⟩, s)
  | none =>
      match insertMenuItem s (bindJS b.FoodName) (bindJS b.Price)
          (bindJS b.Description) with
      | .ok s' => (⟨200, .message "Item added successfully"⟩, s')
      | .error _ =>
          (⟨500, .errorMsg "Internal Server Error: Please try again later."⟩,
           s)

/-- `POST /api/menu`: `if (Price < 0)` responds 400 with
`{error: "Price must be a positive number."}` and returns before any
store call; otherwise the insert branch runs. -/
def handlePostMenu (s : DBState) (b : PostBody) (sf : StoreFailure) :
    HttpResponse × DBState :=
  if jsLtZero b.Price then
    (⟨400, .errorMsg "Price must be a positive number."⟩, s)
  else
    postInsertBranch s b sf

/-- `DELETE /api/menu/:id`: delegates the delete (the path parameter is a
digit string compared against the INTEGER-affinity `FoodID` column, hence
a `Nat` here) and responds 200 `{message: "Item deleted successfully"}`;
a thrown store error is mapped to the fixed 500 body. -/
def handleDeleteMenu (s : DBState) (id : Nat) (sf : StoreFailure) :
    HttpResponse × DBState :=
  match sf with
  | some _ => (⟨500, .errorMsg "Error deleting menu item"⟩, s)
  | none => (⟨200, .message "Item deleted successfully"⟩,
             deleteMenuItemFromDB s id)

/-! ## Referential integrity and reachability -/

/-- Referential integrity of ORDER_DETAILS: every row's `OrderID`
references an existing ORDERS row and its `FoodID` references an existing
MENU row. -/
def refIntegrity (s : DBState) : Prop :=
  ∀ od ∈ s.orderDetails,
    (∃ o ∈ s.orders, o.OrderID = od.OrderID) ∧
    (∃ m ∈ s.menu, m.FoodID = od.FoodID)

instance (s : DBState) : Decidable (refIntegrity s) := by
  unfold refIntegrity; infer_instance

/-- States reachable from the seeded store through the successful store
transitions of the three exposed operations: listing (which does not
change state), a successful insert, and a menu delete. -/
inductive Reachable : DBState → Prop where
  | seed : Reachable seedState
  | create {s s' : DBState} {n p d : SQLVal} (hs : Reachable s)
      (h : insertMenuItem s n p d = .ok s') : Reachable s'
  | deleteMenu {s : DBState} (id : Nat) (hs : Reachable s) :
      Reachable (deleteMenuItemFromDB s id)

/-! ## Helper lemmas -/

/-- Every member of a list of naturals is bounded by its `foldr max 0`. -/
lemma mem_le_foldr_max {l : List Nat} {x : Nat} (h : x ∈ l) :
    x ≤ l.foldr max 0 := by
  induction l with
  | nil => cases h
  | cons a t ih =>
      rcases List.mem_cons.mp h with rfl | ht
      · exact le_max_left _ _
      · exact le_trans (ih ht) (le_max_right _ _)

/-- A filter keeping everything is the identity. -/
lemma filter_eq_self_of_all {α : Type} {p : α → Bool} {l : List α}
    (h : ∀ a ∈ l, p a = true) : l.filter p = l := by
  induction l with
  | nil => rfl
  | cons a t ih =>
      rw [List.filter_cons, if_pos (h a (List.mem_cons_self a t))]
      rw [ih (fun b hb => h b (List.mem_cons_of_mem a hb))]

/-- Removing the rows with one key value from a list whose keys are
pairwise distinct and contain that value removes exactly one row. -/
lemma length_filter_ne_of_nodup {α : Type} (f : α → Nat) :
    ∀ (l : List α) (fid : Nat), (l.map f).Nodup → fid ∈ l.map f →
      (l.filter (fun a => f a ≠ fid)).length + 1 = l.length := by
  intro l
  induction l with
  | nil => intro fid _ hm; cases hm
  | cons a t ih =>
      intro fid hnd hm
      rw [List.map_cons, List.nodup_cons] at hnd
      rw [List.filter_cons]
      by_cases ha : f a = fid
      · subst ha
        rw [if_neg (by simp)]
        rw [filter_eq_self_of_all (fun b hb => ?_), List.length_cons]
        simp only [ne_eq, decide_eq_true_eq]
        exact fun hc => hnd.1 (hc ▸ List.mem_map_of_mem f hb)
      · rw [if_pos (by simpa using ha)]
        rcases List.mem_cons.mp (List.map_cons f a t ▸ hm) with h | h
        · exact absurd h.symm ha
        · have := ih fid hnd.2 h
          simp only [List.length_cons]
          omega

/-- Unfolding a successful `insertMenuItem`: the menu gains exactly one
fresh row and the other two tables are untouched. -/
lemma insertMenuItem_ok {s s' : DBState} {n p d : SQLVal}
    (h : insertMenuItem s n p d = .ok s') :
    s'.menu = s.menu ++ [⟨nextFoodID s, n, numericAffinity p, d⟩] ∧
    s'.orders = s.orders ∧ s'.orderDetails = s.orderDetails := by
  unfold insertMenuItem at h
  split at h
  · cases h
  · cases h; exact ⟨rfl, rfl, rfl⟩

/-! ## The claims -/

/-- C1: the claim (and the spec) require the delete of a MenuItem to
cascade, via the storage engine, to every ORDER_DETAILS row referencing
it — but the program never enables SQLite foreign-key enforcement, so the
declared cascade is inert.  Evaluating the code at the failing input:
deleting FoodID 1 from the seeded store removes the MENU row, yet the
referencing ORDER_DETAILS row (OrderDetailID 1, OrderID 1, FoodID 1,
Quantity 1) survives, orphaned. -/
theorem menu_delete_leaves_orphans :
    (deleteMenuItemFromDB seedState 1).menu.filter
      (fun it => it.FoodID = 1) = [] ∧
    (deleteMenuItemFromDB seedState 1).orderDetails.filter
      (fun od => od.FoodID = 1) = [⟨1, 1, 1, 1⟩] := by
  constructor <;> decide

/-- C3: deleting an Order cascade-deletes all of its OrderDetail line
items (for every state and OrderID, no ORDER_DETAILS row with that
OrderID survives the delete), and in the seeded store exactly two
ORDER_DETAILS rows have OrderID 1 yet none remains after deleting Order
1. -/
theorem order_delete_cascades :
    (∀ (s : DBState) (oid : Nat),
      (deleteOrder s oid).orderDetails.filter
        (fun od => od.OrderID = oid) = []) ∧
    (seedState.orderDetails.filter (fun od => od.OrderID = 1)).length = 2 ∧
    (deleteOrder seedState 1).orderDetails.filter
      (fun od => od.OrderID = 1) = [] := by
  refine ⟨fun s oid => ?_, by decide, by decide⟩
  unfold deleteOrder
  simp only [List.filter_filter]
  apply List.eq_nil_of_length_eq_zero
  rw [List.length_eq_zero, List.filter_eq_nil_iff]
  intro a _
  simp

/-- C9: the store layer places no sign constraint on the price: for every
rational price, including negative ones, `insertMenuItem` succeeds and
appends exactly one row holding exactly that price, leaving every other
menu row and the ORDERS and ORDER_DETAILS tables untouched. -/
theorem insert_accepts_any_price (s : DBState) (n d : String) (p : ℚ) :
    insertMenuItem s (.text n) (.num p) (.text d) =
      .ok { s with menu :=
        s.menu ++ [⟨nextFoodID s, .text n, .num p, .text d⟩] } := by
  unfold insertMenuItem
  rw [if_neg]
  · rfl
  · rintro (h | h | h) <;> cases h

/-- C2: the claim (and the spec) make referential integrity an invariant
of every state reachable through the exposed operations, but the code
violates it: because no connection enables foreign-key enforcement, the
state reached from the seeded store by the single exposed delete of
FoodID 1 keeps an ORDER_DETAILS row whose FoodID references no MENU
row. -/
theorem reachable_integrity_violated :
    Reachable (deleteMenuItemFromDB seedState 1) ∧
    ¬ refIntegrity (deleteMenuItemFromDB seedState 1) :=
  ⟨Reachable.deleteMenu 1 Reachable.seed, by decide⟩

/-- C4: `POST /api/menu` with a numeric Price responds 400 with
`{error: "Price must be a positive number."}` exactly when the price is
negative, leaving the store untouched (a subsequent listing is unchanged)
and making no store call; otherwise the handler runs exactly the insert
branch that delegates to the store. -/
theorem post_rejects_negative_price (s : DBState) (n d : JSValue)
    (p : ℚ) (sf : StoreFailure) :
    (p < 0 →
      handlePostMenu s ⟨n, .num p, d⟩ sf =
        (⟨400, .errorMsg "Price must be a positive number."⟩, s) ∧
      getMenuItemsFromDB (handlePostMenu s ⟨n, .num p, d⟩ sf).2 =
        getMenuItemsFromDB s) ∧
    (0 ≤ p →
      handlePostMenu s ⟨n, .num p, d⟩ sf =
        postInsertBranch s ⟨n, .num p, d⟩ sf) := by
  constructor
  · intro hp
    have hlt : jsLtZero (JSValue.num p) = true := by
      simp [jsLtZero, toNumber, hp]
    constructor
    · unfold handlePostMenu
      rw [if_pos hlt]
    · unfold handlePostMenu
      rw [if_pos hlt]
  · intro hp
    have hlt : jsLtZero (JSValue.num p) = false := by
      simp [jsLtZero, toNumber, not_lt.mpr hp]
    unfold handlePostMenu
    rw [if_neg (by simp [hlt])]

/-- C4 witness: at the seeded store, Price −5 yields the 400 rejection
with the store untouched, and Price 5 takes the insert branch. -/
theorem post_rejects_negative_price_witness :
    (handlePostMenu seedState ⟨.str "Bad", .num (-5), .str "x"⟩ none =
      (⟨400, .errorMsg "Price must be a positive number."⟩, seedState)) ∧
    (handlePostMenu seedState ⟨.str "Good", .num 5, .str "x"⟩ none =
      postInsertBranch seedState ⟨.str "Good", .num 5, .str "x"⟩ none) :=
  ⟨((post_rejects_negative_price seedState (.str "Bad") (.str "x") (-5)
      none).1 (by norm_num)).1,
   (post_rejects_negative_price seedState (.str "Good") (.str "x") 5
      none).2 (by norm_num)⟩

/-- C5: for every valid input (name, non-negative price, description),
creating then listing yields the old listing extended with exactly one
new MenuItem whose FoodName, Price and Description equal the inputs and
whose FoodID is freshly assigned, distinct from every FoodID already in
the store. -/
theorem create_then_list (s : DBState) (n d : String) (p : ℚ)
    (_hp : 0 ≤ p) :
    insertMenuItem s (.text n) (.num p) (.text d) =
      .ok { s with menu := getMenuItemsFromDB s ++
        [⟨nextFoodID s, .text n, .num p, .text d⟩] } ∧
    nextFoodID s ∉ (getMenuItemsFromDB s).map MenuItem.FoodID := by
  refine ⟨insert_accepts_any_price s n d p, fun hc => ?_⟩
  have hle : nextFoodID s ≤ (s.menu.map MenuItem.FoodID).foldr max 0 :=
    mem_le_foldr_max hc
  exact absurd hle (by unfold nextFoodID; omega)

/-- C5 witness: creating ("Test Food", 15.99, description) on the seeded
store appends exactly that row under the fresh FoodID, which no seeded
row carries. -/
theorem create_then_list_witness :
    insertMenuItem seedState (.text "Test Food") (.num 15.99)
        (.text "A tasty test food") =
      .ok { seedState with menu := getMenuItemsFromDB seedState ++
        [⟨nextFoodID seedState, .text "Test Food", .num 15.99,
          .text "A tasty test food"⟩] } ∧
    nextFoodID seedState ∉
      (getMenuItemsFromDB seedState).map MenuItem.FoodID :=
  create_then_list seedState "Test Food" "A tasty test food" 15.99
    (by norm_num)

/-- C6: for an identity absent from MENU (in a referentially intact
state), `DELETE /api/menu/:id` succeeds as a no-op: it responds 200
`{message: "Item deleted successfully"}` and the store state is
unchanged. -/
theorem delete_nonexistent_noop (s : DBState) (id : Nat)
    (_hint : refIntegrity s) (hid : id ∉ s.menu.map MenuItem.FoodID) :
    handleDeleteMenu s id none =
      (⟨200, .message "Item deleted successfully"⟩, s) := by
  unfold handleDeleteMenu deleteMenuItemFromDB
  have hmenu : s.menu.filter (fun it => it.FoodID ≠ id) = s.menu := by
    apply filter_eq_self_of_all
    intro a ha
    simp only [ne_eq, decide_eq_true_eq]
    exact fun hc => hid (hc ▸ List.mem_map_of_mem MenuItem.FoodID ha)
  rw [hmenu]

/-- C6 witness: deleting the absent FoodID 42 from the seeded store
returns the 200 success with the state unchanged. -/
theorem delete_nonexistent_noop_witness :
    handleDeleteMenu seedState 42 none =
      (⟨200, .message "Item deleted successfully"⟩, seedState) :=
  delete_nonexistent_noop seedState 42 (by decide) (by decide)

/-- C7: deleting a FoodID present in MENU (whose primary-key column is
duplicate-free) removes exactly that one row: the new listing is the old
one with precisely the rows of that FoodID filtered out, its length drops
by exactly one, and the ORDERS table is untouched. -/
theorem delete_exact_row (s : DBState) (fid : Nat)
    (hnd : (s.menu.map MenuItem.FoodID).Nodup)
    (hm : fid ∈ s.menu.map MenuItem.FoodID) :
    getMenuItemsFromDB (deleteMenuItemFromDB s fid) =
      (getMenuItemsFromDB s).filter (fun it => it.FoodID ≠ fid) ∧
    (getMenuItemsFromDB (deleteMenuItemFromDB s fid)).length + 1 =
      (getMenuItemsFromDB s).length ∧
    (deleteMenuItemFromDB s fid).orders = s.orders :=
  ⟨rfl, length_filter_ne_of_nodup MenuItem.FoodID s.menu fid hnd hm, rfl⟩

/-- C7 witness: deleting FoodID 1 from the seeded store filters exactly
the one row with FoodID 1 out of the listing of ten and keeps ORDERS. -/
theorem delete_exact_row_witness :
    getMenuItemsFromDB (deleteMenuItemFromDB seedState 1) =
      (getMenuItemsFromDB seedState).filter (fun it => it.FoodID ≠ 1) ∧
    (getMenuItemsFromDB (deleteMenuItemFromDB seedState 1)).length + 1 =
      (getMenuItemsFromDB seedState).length ∧
    (deleteMenuItemFromDB seedState 1).orders = seedState.orders :=
  delete_exact_row seedState 1 (by decide) (by decide)

/-- C8: every store-layer failure, whatever its internal message `e`, is
reported as status 500 with the endpoint's fixed opaque body — the
response is a constant in which no part of `e` appears. -/
theorem store_errors_opaque (s : DBState) (b : PostBody) (id : Nat)
    (e : String) (hb : jsLtZero b.Price = false) :
    handleGetMenu s (some e) =
      (⟨500, .errorMsg "Error retrieving menu items"⟩, s) ∧
    handlePostMenu s b (some e) =
      (⟨500, .errorMsg "Internal Server Error: Please try again later."⟩,
       s) ∧
    handleDeleteMenu s id (some e) =
      (⟨500, .errorMsg "Error deleting menu item"⟩, s) := by
  refine ⟨rfl, ?_, rfl⟩
  unfold handlePostMenu
  rw [if_neg (by simp [hb])]
  rfl

/-- C8 witness: a store failure with internal message "SQLITE_CANTOPEN"
at the seeded store yields the three fixed 500 bodies. -/
theorem store_errors_opaque_witness :
    handleGetMenu seedState (some "SQLITE_CANTOPEN") =
      (⟨500, .errorMsg "Error retrieving menu items"⟩, seedState) ∧
    handlePostMenu seedState ⟨.str "Pie", .num 3, .str "x"⟩
        (some "SQLITE_CANTOPEN") =
      (⟨500, .errorMsg "Internal Server Error: Please try again later."⟩,
       seedState) ∧
    handleDeleteMenu seedState 1 (some "SQLITE_CANTOPEN") =
      (⟨500, .errorMsg "Error deleting menu item"⟩, seedState) :=
  store_errors_opaque seedState ⟨.str "Pie", .num 3, .str "x"⟩ 1
    "SQLITE_CANTOPEN" rfl

/-- C10: the 400 price validation fires only for a Price that compares
less than 0 under JavaScript comparison; a Price that is absent
(`undefined`), `null`, or a non-numeric string is not rejected but the
request is forwarded unchanged to the insert branch that calls the
store's insert, so the status is never 400. -/
theorem post_forwards_nonnumeric_price (s : DBState) (b : PostBody)
    (sf : StoreFailure)
    (h : b.Price = .undef ∨ b.Price = .null ∨
      ∃ t, b.Price = .str t ∧ strToNumber t = .nan) :
    handlePostMenu s b sf = postInsertBranch s b sf ∧
    (handlePostMenu s b sf).1.status ≠ 400 := by
  have hlt : jsLtZero b.Price = false := by
    rcases h with h | h | ⟨t, ht, hnan⟩
    · rw [h]; rfl
    · rw [h]; rfl
    · rw [ht]; simp [jsLtZero, toNumber, hnan]
  have heq : handlePostMenu s b sf = postInsertBranch s b sf := by
    unfold handlePostMenu
    rw [if_neg (by simp [hlt])]
  refine ⟨heq, ?_⟩
  rw [heq]
  unfold postInsertBranch
  rcases sf with _ | e
  · cases hins : insertMenuItem s (bindJS b.FoodName) (bindJS b.Price)
      (bindJS b.Description) <;> simp [hins]
  · simp

/-- C10 witness: Price = "abc" (a non-numeric string) is forwarded to the
insert branch and the response status is not 400. -/
theorem post_forwards_nonnumeric_price_witness :
    handlePostMenu seedState ⟨.str "Thing", .str "abc", .str "x"⟩ none =
      postInsertBranch seedState ⟨.str "Thing", .str "abc", .str "x"⟩
        none ∧
    (handlePostMenu seedState ⟨.str "Thing", .str "abc", .str "x"⟩
      none).1.status ≠ 400 :=
  post_forwards_nonnumeric_price seedState
    ⟨.str "Thing", .str "abc", .str "x"⟩ none
    (Or.inr (Or.inr ⟨"abc", rfl, rfl⟩))

end Restaurant
